import Mathlib

/-
Verification of the queue / outbox subsystem of template-go
(pkg/framework/queue/queue.go and its outbox half).

The Go code is shallowly embedded: pure helpers become Lean functions,
effectful methods become functions from an explicit environment (the
outcomes of broker and database collaborator calls) to a record of the
effects the method performs (messages passed to Dispatch, Ack calls,
log events) together with the returned values.  Go machine integers are
modelled as Int with an explicit two's-complement wrap at 64 bits at
the one spot where overflow is reachable (calculateExponentialBackoff);
Go panics are modelled as the error branch of Except.
-/

namespace queue

/-- Two's-complement wrap of a mathematical integer into the range of a
Go int (64-bit on the supported platforms).  Go integer arithmetic wraps
on overflow, which this reproduces. -/
def wrap64 (x : Int) : Int :=
  (x + 2 ^ 63) % 2 ^ 64 - 2 ^ 63

/-- Model of the Go expression int(math.Pow(2, float64(e))) for a natural
exponent e.  math.Pow(2, e) is the exact float64 2^e for every e below 1024,
and the conversion to int is exact while the value fits in int64 (e up to 62).
Beyond that the conversion overflows; Go leaves the result
implementation-dependent and the amd64/arm64 runtimes yield the minimal
int64, which is what this definition uses. -/
def pow2AsInt (e : Nat) : Int :=
  if e ≤ 62 then 2 ^ e else -(2 ^ 63)

/-- Embedding of calculateExponentialBackoff (queue.go): delay in
milliseconds, 0 for a non-positive retry count, otherwise
100 * int(math.Pow(2, retryCount-1)) computed in Go int arithmetic. -/
def calculateExponentialBackoff (retryCount : Int) : Int :=
  if retryCount ≤ 0 then 0
  else wrap64 (100 * pow2AsInt (retryCount - 1).toNat)

/-- Default maximum number of retries for a message (constant MaxRetries). -/
def MaxRetries : Int := 3

theorem wrap64_eq_self {x : Int} (h0 : -(2 ^ 63) ≤ x) (h1 : x < 2 ^ 63) :
    wrap64 x = x := by
  unfold wrap64
  rw [Int.emod_eq_of_lt (by omega) (by omega)]
  omega

theorem calculateExponentialBackoff_of_nonpos {z : Int} (hz : z ≤ 0) :
    calculateExponentialBackoff z = 0 := by
  unfold calculateExponentialBackoff
  simp [hz]

/-- In the overflow-free range the backoff is the exact power formula. -/
theorem calculateExponentialBackoff_eq_pow {r : Nat} (h1 : 1 ≤ r) (h57 : r ≤ 57) :
    calculateExponentialBackoff (r : Int) = 100 * 2 ^ (r - 1) := by
  unfold calculateExponentialBackoff
  rw [if_neg (by omega)]
  have he : ((r : Int) - 1).toNat = r - 1 := by omega
  rw [he]
  have hle : r - 1 ≤ 62 := by omega
  unfold pow2AsInt
  rw [if_pos hle]
  have hbound : (2 : Int) ^ (r - 1) ≤ 2 ^ 56 := by
    apply pow_le_pow_right₀ (by norm_num)
    omega
  have hpos : (0 : Int) < 2 ^ (r - 1) := by positivity
  exact wrap64_eq_self (by nlinarith) (by nlinarith)

theorem calculateExponentialBackoff_nonneg_of_le_three {k : Int} (hk : k ≤ 3) :
    0 ≤ calculateExponentialBackoff k := by
  rcases le_or_lt k 0 with h | h
  · rw [calculateExponentialBackoff_of_nonpos h]
  · interval_cases k <;> decide

/-- The standard base64 alphabet used by encoding/base64 StdEncoding, as the
byte at a given 6-bit index. -/
def b64Byte (i : UInt8) : UInt8 :=
  (("ABCDEFGHIJKLMNOPQRSTUVWXYZabcdefghijklmnopqrstuvwxyz0123456789+/".data.map
      (fun c => UInt8.ofNat c.toNat)).getD i.toNat 65)

/-- ASCII code of the padding character of StdEncoding. -/
def b64Pad : UInt8 := 61

/-- ASCII code of the JSON string quote. -/
def jsonQuote : UInt8 := 34

/-- Standard base64 encoding with padding of a byte slice, grouping the
input into 3-byte blocks, as encoding/base64 StdEncoding does. -/
def base64Encode : List UInt8 → List UInt8
  | [] => []
  | [a] =>
      [b64Byte (a >>> 2), b64Byte ((a &&& 3) <<< 4), b64Pad, b64Pad]
  | [a, b] =>
      [b64Byte (a >>> 2), b64Byte (((a &&& 3) <<< 4) ||| (b >>> 4)),
       b64Byte ((b &&& 15) <<< 2), b64Pad]
  | a :: b :: c :: rest =>
      b64Byte (a >>> 2) :: b64Byte (((a &&& 3) <<< 4) ||| (b >>> 4)) ::
      b64Byte (((b &&& 15) <<< 2) ||| (c >>> 6)) :: b64Byte (c &&& 63) ::
      base64Encode rest

/-- Model of json.Marshal applied to a Go byte slice: a JSON string literal
holding the base64 encoding of the bytes.  This never fails.  (A nil and an
empty slice are identified by the embedding; the nil case does not arise on
the paths modelled here, since bodies are produced by json.Marshal.) -/
def jsonMarshalBytes (b : List UInt8) : List UInt8 :=
  jsonQuote :: (base64Encode b ++ [jsonQuote])

theorem base64Encode_length : ∀ b : List UInt8,
    (base64Encode b).length = 4 * ((b.length + 2) / 3)
  | [] => by simp [base64Encode]
  | [_] => by simp [base64Encode]
  | [_, _] => by simp [base64Encode]
  | _ :: _ :: _ :: rest => by
      have ih := base64Encode_length rest
      simp only [base64Encode, List.length_cons, ih]
      omega

/-- Re-encoding a body strictly lengthens it, so the marshalled body is never
byte-identical to the original. -/
theorem jsonMarshalBytes_ne (b : List UInt8) : jsonMarshalBytes b ≠ b := by
  intro h
  have hlen : (jsonMarshalBytes b).length = b.length := by rw [h]
  simp only [jsonMarshalBytes, List.length_cons, List.length_append,
    List.length_singleton, base64Encode_length] at hlen
  omega

/-- Embedding of the Message envelope (queue.go).  The broker-side channel
and delivery handles are not data; they are modelled by the environment of
the functions that use them. -/
structure Message where
  id : String
  name : String
  body : List UInt8
  delay : Int
  retryCount : Int
  maxRetries : Int
  deriving DecidableEq

/-- Option MessageWithID. -/
def MessageWithID (i : String) (m : Message) : Message := { m with id := i }

/-- Option MessageWithDelay. -/
def MessageWithDelay (delayMs : Int) (m : Message) : Message :=
  { m with delay := delayMs }

/-- Option MessageWithMaxRetries. -/
def MessageWithMaxRetries (maxRetries : Int) (m : Message) : Message :=
  { m with maxRetries := maxRetries }

/-- Option MessageWithRetryCount. -/
def MessageWithRetryCount (retryCount : Int) (m : Message) : Message :=
  { m with retryCount := retryCount }

/-- Embedding of NewMessage specialised to a byte-slice body, the shape
used by RetryMessage: the body is passed through json.Marshal (which
base64-encodes a byte slice and cannot fail), the id is a fresh uuid
(supplied by the environment), maxRetries defaults to MaxRetries, and the
options are applied in order. -/
def NewMessage (freshId : String) (name : String) (body : List UInt8)
    (opts : List (Message → Message)) : Message :=
  opts.foldl (fun m opt => opt m)
    { id := freshId, name := name, body := jsonMarshalBytes body,
      delay := 0, retryCount := 0, maxRetries := MaxRetries }

/-- Embedding of Message.ShouldRetry. -/
def Message.ShouldRetry (m : Message) : Bool :=
  decide (m.retryCount < m.maxRetries)

/-- Embedding of MessageHandler: the predicate and the action.  The action
returns none on success and some error string on failure. -/
structure MessageHandler where
  canHandle : Message → Bool
  run : Message → Option String

/-- Embedding of Queue.RetryMessage, given the fresh uuid NewMessage would
draw and the outcome Queue.Dispatch would report for a given message
(none = published).  Returns the synthesized retry message together with
the error RetryMessage returns (NewMessage itself cannot fail on a
byte-slice body, so the only failure is the dispatch). -/
def RetryMessage (freshId : String) (dispatchResult : Message → Option String)
    (m : Message) : Message × Option String :=
  let retryCount := m.retryCount + 1
  let delay := calculateExponentialBackoff retryCount
  let retryMessage := NewMessage freshId m.name m.body
    [MessageWithID m.id, MessageWithDelay delay,
     MessageWithRetryCount retryCount, MessageWithMaxRetries m.maxRetries]
  match dispatchResult retryMessage with
  | some e => (retryMessage, some ("failed to dispatch retry message: " ++ e))
  | none => (retryMessage, none)

/-- Collaborator outcomes for one HandleMessage call: the uuid NewMessage
would draw, the result Queue.Dispatch would report for a given message, and
the result of Ack on the current delivery. -/
structure HandleEnv where
  freshId : String
  dispatchResult : Message → Option String
  ackErr : Option String

/-- The observable effects of one HandleMessage call. -/
structure HandleResult where
  /-- Messages passed to Queue.Dispatch by the retry path, in order. -/
  retryDispatches : List Message
  /-- Number of Ack invocations on the current delivery. -/
  ackCalls : Nat
  /-- Whether the no-handler warning was logged. -/
  warnedNoHandler : Bool
  /-- Whether the failure of the retry dispatch itself was logged. -/
  loggedRetryFailure : Bool
  /-- Whether a failure of Ack was logged. -/
  loggedAckFailure : Bool
  deriving DecidableEq

/-- Embedding of Queue.HandleMessage.  The Go loop runs the first handler
whose predicate matches and returns from inside the loop, which is the
first match of find?.  On handler failure with retries left it calls
RetryMessage, logging (only) a RetryMessage error; in every matched branch
it then calls Ack exactly once, logging an Ack error.  With no match it
logs a warning and never touches the delivery.  The function is total: no
collaborator outcome makes the call itself fail. -/
def HandleMessage (handlers : List MessageHandler) (env : HandleEnv)
    (m : Message) : HandleResult :=
  match handlers.find? (fun h => h.canHandle m) with
  | some h =>
      match h.run m with
      | some _ =>
          if m.ShouldRetry then
            let r := RetryMessage env.freshId env.dispatchResult m
            { retryDispatches := [r.1], ackCalls := 1, warnedNoHandler := false,
              loggedRetryFailure := r.2.isSome,
              loggedAckFailure := env.ackErr.isSome }
          else
            { retryDispatches := [], ackCalls := 1, warnedNoHandler := false,
              loggedRetryFailure := false,
              loggedAckFailure := env.ackErr.isSome }
      | none =>
          { retryDispatches := [], ackCalls := 1, warnedNoHandler := false,
            loggedRetryFailure := false,
            loggedAckFailure := env.ackErr.isSome }
  | none =>
      { retryDispatches := [], ackCalls := 0, warnedNoHandler := true,
        loggedRetryFailure := false, loggedAckFailure := false }

/-- Model of the Go builtin close on a channel represented by its
closed flag: closing an open channel closes it; closing an already
closed channel panics with the runtime message.  The panic is the
error branch of Except. -/
def closeChannelSignal (closed : Bool) : Except String Bool :=
  if closed then Except.error "close of closed channel" else Except.ok true

/-- Embedding of Queue.Shutdown over the state of q.shutdownChan: it logs,
closes the channel (panicking if it is already closed), logs again and
returns nil.  The result carries the new channel state and the returned
error value. -/
def Queue.Shutdown (shutdownClosed : Bool) :
    Except String (Bool × Option String) :=
  match closeChannelSignal shutdownClosed with
  | Except.error p => Except.error p
  | Except.ok closed => Except.ok (closed, none)

/-- Embedding of Pool.Shutdown over the shutdown-channel states of the
queues in pool order: signal each queue in turn; if a per-queue Shutdown
returned a non-nil error, log, stop, and return the wrapped error without
touching the remaining queues; a panic propagates. -/
def Pool.Shutdown : List Bool → Except String (List Bool × Option String)
  | [] => Except.ok ([], none)
  | b :: bs =>
      match Queue.Shutdown b with
      | Except.error p => Except.error p
      | Except.ok (b1, some e) =>
          Except.ok (b1 :: bs, some ("failed to shutdown queue: " ++ e))
      | Except.ok (b1, none) =>
          match Pool.Shutdown bs with
          | Except.error p => Except.error p
          | Except.ok (bs1, e) => Except.ok (b1 :: bs1, e)

/-- A queue as seen by Pool lookup: its name (handlers and broker state
play no role in FindQueue and Dispatch routing). -/
structure QueueRec where
  name : String
  deriving DecidableEq

/-- Broker collaborator outcomes for one Queue.Dispatch call. -/
structure DispatchEnv where
  openChannelErr : Option String
  publishErr : Option String

/-- Embedding of Queue.Dispatch's returned error: json.Marshal of a
Message value cannot fail, so the failure sources are opening the channel
and publishing; none means the message was published. -/
def QueueDispatch (env : DispatchEnv) (_q : QueueRec) (_m : Message) :
    Option String :=
  match env.openChannelErr with
  | some e => some ("failed to open a channel: " ++ e)
  | none =>
      match env.publishErr with
      | some e => some ("failed to publish a message: " ++ e)
      | none => none

/-- Embedding of Pool.FindQueue: first queue in pool order with the name. -/
def FindQueue (pool : List QueueRec) (name : String) : Option QueueRec :=
  pool.find? (fun q => q.name = name)

/-- Embedding of Pool.Dispatch: look the queue up by name, error if absent,
otherwise return that queue's Dispatch result unchanged. -/
def PoolDispatch (env : DispatchEnv) (pool : List QueueRec) (queueName : String)
    (m : Message) : Option String :=
  match FindQueue pool queueName with
  | none => some ("queue not found: " ++ queueName)
  | some q => QueueDispatch env q m

/-- One resolved firing of the select in FetchMessage's polling loop:
the context became done, the closed shutdown channel was chosen, or the
ticker fired and channel.Get observed no message, failed, or yielded a
delivery (whose JSON decode may fail, modelled by tickMsg none). -/
inductive FetchEvent where
  | ctxDone
  | shutdown
  | tickNone
  | tickGetErr (e : String)
  | tickMsg (decoded : Option Message)
  deriving DecidableEq

/-- Collaborator outcomes for one FetchMessage call: the result of opening
the fetch channel, the result of closing it on the shutdown exit, and the
sequence of select firings. -/
structure FetchEnv where
  openErr : Option String
  closeErr : Option String
  events : List FetchEvent

/-- What one FetchMessage call returns, plus whether the shutdown stop was
logged. -/
structure FetchOutcome where
  msg : Option Message
  err : Option String
  loggedStop : Bool
  deriving DecidableEq

/-- The polling loop of FetchMessage, consuming select firings in order.
none means the call is still blocked in select (it has not returned). -/
def fetchLoop (closeErr : Option String) : List FetchEvent → Option FetchOutcome
  | [] => none
  | FetchEvent.ctxDone :: _ => some ⟨none, none, false⟩
  | FetchEvent.shutdown :: _ =>
      match closeErr with
      | some ce =>
          some ⟨none, some ("failed to close channel during shutdown: " ++ ce),
            false⟩
      | none => some ⟨none, none, true⟩
  | FetchEvent.tickNone :: rest => fetchLoop closeErr rest
  | FetchEvent.tickGetErr e :: _ =>
      some ⟨none, some ("failed to get message: " ++ e), false⟩
  | FetchEvent.tickMsg none :: _ =>
      some ⟨none, some "failed to unmarshal message", false⟩
  | FetchEvent.tickMsg (some m) :: _ => some ⟨some m, none, false⟩

/-- Embedding of Queue.FetchMessage: open a channel (an error there is
returned at once), then block in the select loop. -/
def FetchMessage (env : FetchEnv) : Option FetchOutcome :=
  match env.openErr with
  | some e => some ⟨none, some ("failed to open a channel: " ++ e), false⟩
  | none => fetchLoop env.closeErr env.events

/-- Which select firings are possible given the state of q.shutdownChan at
the call.  A never-closed shutdown channel never fires.  Once the channel
is closed it is ready at the very first select evaluation while the 50ms
ticker is not yet ready, and Go select completes at a ready case, so the
first firing of the call is the context or the shutdown case. -/
def ValidFetchEvents (shutdownClosed : Bool) (events : List FetchEvent) : Prop :=
  (shutdownClosed = false → FetchEvent.shutdown ∉ events) ∧
  (shutdownClosed = true → ∀ e, events.head? = some e →
    e = FetchEvent.ctxDone ∨ e = FetchEvent.shutdown)

/-- Embedding of an outbox row of the queue_outbox table; timestamps are
integers in milliseconds. -/
structure OutboxRow where
  id : String
  queue_name : String
  message : Message
  created_at : Int
  available_at : Int
  retry_count : Int
  last_error : Option String
  deriving DecidableEq

/-- Embedding of NewOutboxMessage.  The Go code reads time.Now() twice, once
for CreatedAt and once for AvailableAt; the two reads are passed explicitly
(the monotonic clock makes the second no earlier than the first). -/
def NewOutboxMessage (freshId : String) (queueName : String) (msg : Message)
    (tCreated tAvailable : Int) : OutboxRow :=
  { id := freshId, queue_name := queueName, message := msg,
    created_at := tCreated, available_at := tAvailable,
    retry_count := 0, last_error := none }

/-- Embedding of the committed effect of scheduleOutboxRetry on its row: the
single UPDATE of one transaction sets retry_count to retryCount+1,
available_at to now plus the backoff delay, and last_error to the dispatch
error, together. -/
def scheduleOutboxRetry (now : Int) (dispatchErr : String) (row : OutboxRow) :
    OutboxRow :=
  let retryCount := row.retry_count + 1
  let delayMs := calculateExponentialBackoff retryCount
  { row with
      retry_count := retryCount
      available_at := now + delayMs
      last_error := some dispatchErr }

/-- Ordering of outbox rows used by the ORDER BY clause. -/
def rowLE (a b : OutboxRow) : Prop := a.available_at ≤ b.available_at

/-- Insertion into a list kept ascending by available_at. -/
def insertRow (r : OutboxRow) : List OutboxRow → List OutboxRow
  | [] => [r]
  | x :: xs =>
      if r.available_at ≤ x.available_at then r :: x :: xs
      else x :: insertRow r xs

/-- Sorting by available_at ascending (the ORDER BY available_at ASC of the
fetch query; SQL fixes only the ordering, so any ascending sort models it). -/
def sortByAvailableAt : List OutboxRow → List OutboxRow
  | [] => []
  | x :: xs => insertRow x (sortByAvailableAt xs)

/-- Embedding of the result set of the fetchOutboxMessages query on a table
state: rows with available_at at most now and retry_count below MaxRetries,
ordered by available_at ascending, truncated to limit rows.  The function
models the successful call; query, scan and unmarshal failures make the Go
function return an error and no rows. -/
def fetchOutboxMessages (table : List OutboxRow) (now : Int) (limit : Nat) :
    List OutboxRow :=
  (sortByAvailableAt (table.filter
    (fun r => decide (r.available_at ≤ now ∧ MaxRetries > r.retry_count)))).take
    limit

theorem mem_insertRow {a r : OutboxRow} : ∀ {l : List OutboxRow},
    a ∈ insertRow r l → a = r ∨ a ∈ l
  | [], h => by simpa [insertRow] using h
  | x :: xs, h => by
      by_cases hc : r.available_at ≤ x.available_at
      · rw [insertRow, if_pos hc] at h
        simpa using h
      · rw [insertRow, if_neg hc] at h
        rcases List.mem_cons.mp h with h1 | h1
        · exact Or.inr (by simp [h1])
        · rcases mem_insertRow h1 with h2 | h2
          · exact Or.inl h2
          · exact Or.inr (List.mem_cons_of_mem _ h2)

theorem mem_sortByAvailableAt {a : OutboxRow} : ∀ {l : List OutboxRow},
    a ∈ sortByAvailableAt l → a ∈ l
  | [], h => by simp [sortByAvailableAt] at h
  | x :: xs, h => by
      rw [sortByAvailableAt] at h
      rcases mem_insertRow h with h1 | h1
      · simp [h1]
      · exact List.mem_cons_of_mem _ (mem_sortByAvailableAt h1)

theorem sorted_insertRow (r : OutboxRow) : ∀ {l : List OutboxRow},
    l.Sorted rowLE → (insertRow r l).Sorted rowLE
  | [], _ => by simp [insertRow, rowLE]
  | x :: xs, h => by
      rcases List.sorted_cons.mp h with ⟨hx, hxs⟩
      by_cases hc : r.available_at ≤ x.available_at
      · rw [insertRow, if_pos hc]
        refine List.sorted_cons.mpr ⟨?_, h⟩
        intro b hb
        rcases List.mem_cons.mp hb with h1 | h1
        · simpa [rowLE, h1] using hc
        · exact le_trans hc (hx b h1)
      · rw [insertRow, if_neg hc]
        refine List.sorted_cons.mpr ⟨?_, sorted_insertRow r hxs⟩
        intro b hb
        rcases mem_insertRow hb with h1 | h1
        · subst h1
          exact le_of_not_le hc
        · exact hx b h1

theorem sorted_sortByAvailableAt : ∀ (l : List OutboxRow),
    (sortByAvailableAt l).Sorted rowLE
  | [] => by simp [sortByAvailableAt]
  | x :: xs => by
      rw [sortByAvailableAt]
      exact sorted_insertRow x (sorted_sortByAvailableAt xs)

theorem fetchLoop_skip_tickNone (ce : Option String) :
    ∀ (pre l : List FetchEvent), (∀ e ∈ pre, e = FetchEvent.tickNone) →
    fetchLoop ce (pre ++ l) = fetchLoop ce l
  | [], _, _ => rfl
  | e :: pre, l, h => by
      have he : e = FetchEvent.tickNone := h e (by simp)
      subst he
      rw [List.cons_append, fetchLoop]
      exact fetchLoop_skip_tickNone ce pre l (fun x hx => h x (by simp [hx]))

theorem fetchLoop_msg_eq_none_of_head {ce : Option String}
    {events : List FetchEvent} {e : FetchEvent}
    (hhead : events.head? = some e)
    (he : e = FetchEvent.ctxDone ∨ e = FetchEvent.shutdown) :
    ∀ out, fetchLoop ce events = some out → out.msg = none := by
  intro out hout
  cases events with
  | nil => simp at hhead
  | cons x rest =>
      have hx : x = e := by simpa using hhead
      subst hx
      rcases he with h1 | h1 <;> subst h1
      · simp only [fetchLoop] at hout
        cases hout
        rfl
      · cases ce with
        | some c =>
            simp only [fetchLoop] at hout
            cases hout
            rfl
        | none =>
            simp only [fetchLoop] at hout
            cases hout
            rfl

theorem RetryMessage_fst (freshId : String) (dr : Message → Option String)
    (m : Message) :
    (RetryMessage freshId dr m).1 =
      { id := m.id, name := m.name, body := jsonMarshalBytes m.body,
        delay := calculateExponentialBackoff (m.retryCount + 1),
        retryCount := m.retryCount + 1, maxRetries := m.maxRetries } := by
  simp only [RetryMessage, NewMessage, List.foldl, MessageWithID,
    MessageWithDelay, MessageWithRetryCount, MessageWithMaxRetries]
  split <;> rfl

theorem RetryMessage_snd_isSome (freshId : String) (dr : Message → Option String)
    (m : Message) :
    (RetryMessage freshId dr m).2.isSome =
      (dr (RetryMessage freshId dr m).1).isSome := by
  simp only [RetryMessage, NewMessage, List.foldl, MessageWithID,
    MessageWithDelay, MessageWithRetryCount, MessageWithMaxRetries]
  split
  next e heq => simp [heq]
  next heq => simp [heq]

/-- C1 counterexample: at retryCount 58 the Go computation
100 * int(math.Pow(2, 57)) overflows the 64-bit int and wraps to a negative
delay, so the backoff does not equal 100 * 2 ^ 57 there, refuting the claim
for every retryCount of at least 1. -/
theorem c1_counterexample :
    calculateExponentialBackoff 58 ≠ 100 * 2 ^ 57 := by decide

/-- C1 (amended): for retryCount between 1 and 57 the backoff function
returns 100 * 2^(retryCount-1) milliseconds (beyond that range the 64-bit
multiplication overflows), for every retryCount at most 0 it returns 0, and
this single function is the one used by both the queue retry path
(RetryMessage) and the outbox relay retry path (scheduleOutboxRetry). -/
theorem c1_backoff_amended (z : Int) (hz : z ≤ 0) (r : Nat) (h1 : 1 ≤ r)
    (h57 : r ≤ 57) (freshId : String) (dr : Message → Option String)
    (m : Message) (row : OutboxRow) (now : Int) (e : String) :
    calculateExponentialBackoff z = 0 ∧
    calculateExponentialBackoff (r : Int) = 100 * 2 ^ (r - 1) ∧
    (RetryMessage freshId dr m).1.delay =
      calculateExponentialBackoff (m.retryCount + 1) ∧
    (scheduleOutboxRetry now e row).available_at =
      now + calculateExponentialBackoff (row.retry_count + 1) := by
  refine ⟨calculateExponentialBackoff_of_nonpos hz,
    calculateExponentialBackoff_eq_pow h1 h57, ?_, rfl⟩
  rw [RetryMessage_fst]

theorem c1_witness :
    calculateExponentialBackoff (-1) = 0 ∧
    calculateExponentialBackoff ((3 : Nat) : Int) = 100 * 2 ^ ((3 : Nat) - 1) := by
  have h := c1_backoff_amended (-1) (by decide) 3 (by decide) (by decide)
    "fresh" (fun _ => none) ⟨"m1", "orders.created", [], 0, 0, 3⟩
    ⟨"r1", "orders", ⟨"m1", "orders.created", [], 0, 0, 3⟩, 0, 0, 0, none⟩
    0 "boom"
  exact ⟨h.1, h.2.1⟩

/-- C2: when the matching handler fails and retryCount < maxRetries,
HandleMessage passes exactly one retry message to Dispatch, with
retryCount+1, the original id, and delay backoff(retryCount+1); the original
delivery is acknowledged (one Ack call), and a failure of the retry dispatch
is logged while HandleMessage still completes (it is a total function of the
collaborator outcomes, so no dispatch failure can fail the call). -/
theorem c2_retry_dispatch (handlers : List MessageHandler) (env : HandleEnv)
    (m : Message) (h : MessageHandler) (e : String)
    (hfind : handlers.find? (fun x => x.canHandle m) = some h)
    (herr : h.run m = some e)
    (hretry : m.retryCount < m.maxRetries) :
    (HandleMessage handlers env m).retryDispatches =
      [(RetryMessage env.freshId env.dispatchResult m).1] ∧
    (RetryMessage env.freshId env.dispatchResult m).1.retryCount =
      m.retryCount + 1 ∧
    (RetryMessage env.freshId env.dispatchResult m).1.id = m.id ∧
    (RetryMessage env.freshId env.dispatchResult m).1.delay =
      calculateExponentialBackoff (m.retryCount + 1) ∧
    (HandleMessage handlers env m).ackCalls = 1 ∧
    ((env.dispatchResult (RetryMessage env.freshId env.dispatchResult m).1).isSome
      → (HandleMessage handlers env m).loggedRetryFailure = true) := by
  have hsr : m.ShouldRetry = true := by
    simp [Message.ShouldRetry, hretry]
  simp only [HandleMessage, hfind, herr, hsr, if_true]
  refine ⟨trivial, ?_, ?_, ?_, trivial, ?_⟩
  · rw [RetryMessage_fst]
  · rw [RetryMessage_fst]
  · rw [RetryMessage_fst]
  · intro hds
    rw [RetryMessage_snd_isSome]
    exact hds

theorem c2_witness :
    (HandleMessage [⟨fun _ => true, fun _ => some "boom"⟩]
        ⟨"fresh", fun _ => none, none⟩
        ⟨"m1", "orders.created", [], 0, 0, 3⟩).retryDispatches =
      [(RetryMessage "fresh" (fun _ => none)
          ⟨"m1", "orders.created", [], 0, 0, 3⟩).1] ∧
    (RetryMessage "fresh" (fun _ => none)
        ⟨"m1", "orders.created", [], 0, 0, 3⟩).1.retryCount = 0 + 1 ∧
    (HandleMessage [⟨fun _ => true, fun _ => some "boom"⟩]
        ⟨"fresh", fun _ => none, none⟩
        ⟨"m1", "orders.created", [], 0, 0, 3⟩).ackCalls = 1 := by
  have h := c2_retry_dispatch [⟨fun _ => true, fun _ => some "boom"⟩]
    ⟨"fresh", fun _ => none, none⟩ ⟨"m1", "orders.created", [], 0, 0, 3⟩
    ⟨fun _ => true, fun _ => some "boom"⟩ "boom" rfl rfl (by decide)
  exact ⟨h.1, h.2.1, h.2.2.2.2.1⟩

/-- C3: whenever some handler predicate matches, HandleMessage performs
exactly one Ack call on the current delivery, whether the handler succeeds
or fails; on success no retry message is dispatched; on failure with
retryCount equal to maxRetries no retry message is dispatched and the
delivery is still acknowledged; and with no matching handler the delivery is
left unacknowledged and the warning is logged. -/
theorem c3_ack_discipline (handlers : List MessageHandler) (env : HandleEnv)
    (m : Message) :
    (∀ h, handlers.find? (fun x => x.canHandle m) = some h →
      (HandleMessage handlers env m).ackCalls = 1) ∧
    (∀ h, handlers.find? (fun x => x.canHandle m) = some h → h.run m = none →
      (HandleMessage handlers env m).retryDispatches = []) ∧
    (∀ h e, handlers.find? (fun x => x.canHandle m) = some h →
      h.run m = some e → m.retryCount = m.maxRetries →
      (HandleMessage handlers env m).retryDispatches = [] ∧
      (HandleMessage handlers env m).ackCalls = 1) ∧
    (handlers.find? (fun x => x.canHandle m) = none →
      (HandleMessage handlers env m).ackCalls = 0 ∧
      (HandleMessage handlers env m).warnedNoHandler = true) := by
  refine ⟨?_, ?_, ?_, ?_⟩
  · intro h hfind
    simp only [HandleMessage, hfind]
    cases hr : h.run m
    · rfl
    · by_cases hsr : m.ShouldRetry = true
      · simp [hsr]
      · simp [eq_false_of_ne_true hsr]
  · intro h hfind hok
    simp only [HandleMessage, hfind, hok]
  · intro h e hfind herr heq
    have hsr : m.ShouldRetry = false := by
      simp [Message.ShouldRetry, heq]
    simp only [HandleMessage, hfind, herr, hsr, Bool.false_eq_true, if_false]
    exact ⟨trivial, trivial⟩
  · intro hfind
    simp only [HandleMessage, hfind]
    exact ⟨trivial, trivial⟩

theorem c3_witness :
    (HandleMessage [] ⟨"fresh", fun _ => none, none⟩
        ⟨"m1", "orders.created", [], 0, 0, 3⟩).ackCalls = 0 ∧
    (HandleMessage [] ⟨"fresh", fun _ => none, none⟩
        ⟨"m1", "orders.created", [], 0, 0, 3⟩).warnedNoHandler = true :=
  (c3_ack_discipline [] ⟨"fresh", fun _ => none, none⟩
    ⟨"m1", "orders.created", [], 0, 0, 3⟩).2.2.2 rfl

/-- C9: the retry message synthesized by RetryMessage keeps the original
name, id and maxRetries, while its body is json.Marshal of the original
body m.Body, that is the quoted base64 encoding of those bytes, because
NewMessage re-encodes the already-encoded body; the retry body is therefore
never byte-identical to the original body. -/
theorem c9_retry_body_reencoded (freshId : String)
    (dr : Message → Option String) (m : Message) :
    (RetryMessage freshId dr m).1.name = m.name ∧
    (RetryMessage freshId dr m).1.id = m.id ∧
    (RetryMessage freshId dr m).1.maxRetries = m.maxRetries ∧
    (RetryMessage freshId dr m).1.body = jsonMarshalBytes m.body ∧
    (RetryMessage freshId dr m).1.body ≠ m.body := by
  rw [RetryMessage_fst]
  exact ⟨rfl, rfl, rfl, rfl, jsonMarshalBytes_ne m.body⟩

theorem c9_witness :
    (RetryMessage "fresh" (fun _ => none)
        ⟨"m1", "orders.created", [34, 34], 0, 0, 3⟩).1.body =
      jsonMarshalBytes [34, 34] ∧
    (RetryMessage "fresh" (fun _ => none)
        ⟨"m1", "orders.created", [34, 34], 0, 0, 3⟩).1.body ≠ [34, 34] := by
  have h := c9_retry_body_reencoded "fresh" (fun _ => none)
    ⟨"m1", "orders.created", [34, 34], 0, 0, 3⟩
  exact ⟨h.2.2.2.1, h.2.2.2.2⟩

/-- C4 counterexample: the first Shutdown on an open queue succeeds and
closes the signal, but a second Shutdown, finding the channel already
closed, panics with close of closed channel; Shutdown is therefore not a
safe idempotent broadcast. -/
theorem c4_counterexample :
    Queue.Shutdown false = Except.ok (true, none) ∧
    Queue.Shutdown true = Except.error "close of closed channel" :=
  ⟨rfl, rfl⟩

/-- C4 (amended): Queue.Shutdown closes the shutdown signal and returns a
nil error when the signal was still open; a second call after a first
successful call finds the channel closed and panics (close of closed
channel), so Shutdown must be invoked at most once per queue. -/
theorem c4_shutdown_once (closed : Bool) :
    Queue.Shutdown closed =
      if closed then Except.error "close of closed channel"
      else Except.ok (true, none) := by
  cases closed <;> rfl

theorem c4_witness :
    Queue.Shutdown true = Except.error "close of closed channel" := by
  simpa using c4_shutdown_once true

/-- C10: Queue.Shutdown never returns a non-nil error (the only returned
error value is nil; the sole other exit is the double-close panic), hence
the abort-and-report-first-error branch of Pool.Shutdown is unreachable,
and a first invocation of Pool.Shutdown on a pool whose queues are all
still open signals shutdown to every queue and returns nil. -/
theorem c10_pool_shutdown (bs : List Bool) (hopen : ∀ b ∈ bs, b = false) :
    (∀ b r, Queue.Shutdown b = Except.ok r → r.2 = none) ∧
    Pool.Shutdown bs = Except.ok (bs.map (fun _ => true), none) := by
  constructor
  · intro b r h
    cases b
    · cases h
      rfl
    · cases h
  · induction bs with
    | nil => rfl
    | cons b bs ih =>
        have hb : b = false := hopen b (by simp)
        subst hb
        have hrest := ih (fun x hx => hopen x (by simp [hx]))
        simp only [Pool.Shutdown, Queue.Shutdown, closeChannelSignal,
          if_false, hrest, List.map_cons]
        rfl

theorem c10_witness :
    Pool.Shutdown [false, false] = Except.ok ([true, true], none) := by
  simpa using (c10_pool_shutdown [false, false] (by simp)).2

/-- C5 counterexample: a FetchMessage call made after the shutdown signal
was raised (a valid trace fires the shutdown case first) returns a non-nil
error when closing the fetch channel fails, although the claim says a
shutdown-signalled call returns no message and no error. -/
theorem c5_counterexample :
    ValidFetchEvents true [FetchEvent.shutdown] ∧
    FetchMessage ⟨none, some "connection reset", [FetchEvent.shutdown]⟩ =
      some ⟨none,
        some "failed to close channel during shutdown: connection reset",
        false⟩ := by
  constructor
  · unfold ValidFetchEvents
    constructor
    · intro h
      simp at h
    · intro _ e he
      simp only [List.head?_cons, Option.some.injEq] at he
      exact Or.inr he.symm
  · rfl

/-- C5 (amended): provided the fetch channel opens, a FetchMessage call
whose polling loop first observes the cancelled context returns no message
and no error; one whose loop first observes the raised shutdown signal
returns no message and, when the fetch channel also closes cleanly, no
error (logging the stop), while a failing close makes it return that close
error; and after Queue.Shutdown every FetchMessage call that returns at all
returns no message, regardless of the context's lifetime and of
collaborator failures. -/
theorem c5_fetch_amended (shutdownClosed : Bool) (env : FetchEnv) :
    (env.openErr = none → ∀ pre rest,
      env.events = pre ++ FetchEvent.ctxDone :: rest →
      (∀ e ∈ pre, e = FetchEvent.tickNone) →
      FetchMessage env = some ⟨none, none, false⟩) ∧
    (env.openErr = none → env.closeErr = none → ∀ pre rest,
      env.events = pre ++ FetchEvent.shutdown :: rest →
      (∀ e ∈ pre, e = FetchEvent.tickNone) →
      FetchMessage env = some ⟨none, none, true⟩) ∧
    (env.openErr = none → ∀ ce, env.closeErr = some ce → ∀ pre rest,
      env.events = pre ++ FetchEvent.shutdown :: rest →
      (∀ e ∈ pre, e = FetchEvent.tickNone) →
      FetchMessage env =
        some ⟨none, some ("failed to close channel during shutdown: " ++ ce),
          false⟩) ∧
    (shutdownClosed = true → ValidFetchEvents shutdownClosed env.events →
      ∀ out, FetchMessage env = some out → out.msg = none) := by
  refine ⟨?_, ?_, ?_, ?_⟩
  · intro hopen pre rest hev hpre
    simp only [FetchMessage, hopen]
    rw [hev, fetchLoop_skip_tickNone env.closeErr pre _ hpre]
    rfl
  · intro hopen hclose pre rest hev hpre
    simp only [FetchMessage, hopen]
    rw [hev, fetchLoop_skip_tickNone env.closeErr pre _ hpre]
    simp only [fetchLoop, hclose]
  · intro hopen ce hclose pre rest hev hpre
    simp only [FetchMessage, hopen]
    rw [hev, fetchLoop_skip_tickNone env.closeErr pre _ hpre]
    simp only [fetchLoop, hclose]
  · intro hsd hvalid out hout
    subst hsd
    rcases hvalid with ⟨_, h2⟩
    cases hoe : env.openErr with
    | some e =>
        simp only [FetchMessage, hoe] at hout
        cases hout
        rfl
    | none =>
        simp only [FetchMessage, hoe] at hout
        cases hev : env.events with
        | nil =>
            rw [hev] at hout
            exact absurd hout (by simp [fetchLoop])
        | cons x rest =>
            have hhead : env.events.head? = some x := by rw [hev]; rfl
            have hx := h2 rfl x hhead
            rw [hev] at hout
            exact fetchLoop_msg_eq_none_of_head
              (show (x :: rest).head? = some x from rfl) hx out hout

theorem c5_witness :
    FetchMessage ⟨none, none, [FetchEvent.shutdown]⟩ =
      some ⟨none, none, true⟩ :=
  (c5_fetch_amended true ⟨none, none, [FetchEvent.shutdown]⟩).2.1 rfl rfl
    [] [] rfl (by simp)

/-- C6 counterexample: the pool holds a queue named orders, yet
Pool.Dispatch to orders returns an error (the delegated Queue.Dispatch
failed to publish), refuting the claimed equivalence of an error result
with the absence of the queue. -/
theorem c6_counterexample :
    FindQueue [⟨"orders"⟩] "orders" = some ⟨"orders"⟩ ∧
    PoolDispatch ⟨none, some "connection reset"⟩ [⟨"orders"⟩] "orders"
        ⟨"m1", "orders.created", [], 0, 0, 3⟩ =
      some ("failed to publish a message: " ++ "connection reset") := by
  constructor
  · rfl
  · rfl

/-- C6 (amended): Pool.Dispatch returns the queue-not-found error exactly
when no queue in the pool has the requested name; when such a queue exists
it delegates to the first queue with that name and returns that queue's
Dispatch result unchanged, which may itself be an error. -/
theorem c6_pool_dispatch (env : DispatchEnv) (pool : List QueueRec)
    (queueName : String) (m : Message) :
    (FindQueue pool queueName = none →
      PoolDispatch env pool queueName m =
        some ("queue not found: " ++ queueName)) ∧
    (∀ q, FindQueue pool queueName = some q →
      PoolDispatch env pool queueName m = QueueDispatch env q m) := by
  constructor
  · intro h
    simp only [PoolDispatch, h]
  · intro q h
    simp only [PoolDispatch, h]

theorem c6_witness :
    PoolDispatch ⟨none, none⟩ [] "orders"
        ⟨"m1", "orders.created", [], 0, 0, 3⟩ =
      some ("queue not found: " ++ "orders") :=
  (c6_pool_dispatch ⟨none, none⟩ [] "orders"
    ⟨"m1", "orders.created", [], 0, 0, 3⟩).1 rfl

/-- C7: a successful outbox fetch returns at most limit rows, every
returned row has available_at at most now and retry_count below MaxRetries,
the result is ordered by available_at ascending, and a row whose
retry_count has reached MaxRetries is never selected. -/
theorem c7_fetch_outbox (table : List OutboxRow) (now : Int) (limit : Nat) :
    (fetchOutboxMessages table now limit).length ≤ limit ∧
    (∀ r ∈ fetchOutboxMessages table now limit,
      r.available_at ≤ now ∧ r.retry_count < MaxRetries) ∧
    (fetchOutboxMessages table now limit).Sorted rowLE ∧
    (∀ r, MaxRetries ≤ r.retry_count →
      r ∉ fetchOutboxMessages table now limit) := by
  have hmem : ∀ r ∈ fetchOutboxMessages table now limit,
      r.available_at ≤ now ∧ r.retry_count < MaxRetries := by
    intro r hr
    unfold fetchOutboxMessages at hr
    have h1 := (List.take_sublist limit _).mem hr
    have h2 := mem_sortByAvailableAt h1
    have h3 := List.mem_filter.mp h2
    have h4 := of_decide_eq_true h3.2
    exact ⟨h4.1, h4.2⟩
  refine ⟨?_, hmem, ?_, ?_⟩
  · unfold fetchOutboxMessages
    rw [List.length_take]
    omega
  · unfold fetchOutboxMessages
    exact (sorted_sortByAvailableAt _).sublist (List.take_sublist _ _)
  · intro r hmax hr
    have h := (hmem r hr).2
    omega

theorem c7_witness :
    (fetchOutboxMessages
        [⟨"r1", "orders", ⟨"m1", "orders.created", [], 0, 0, 3⟩,
          0, 5, 0, none⟩] 10 2).length ≤ 2 ∧
    (∀ r ∈ fetchOutboxMessages
        [⟨"r1", "orders", ⟨"m1", "orders.created", [], 0, 0, 3⟩,
          0, 5, 0, none⟩] 10 2,
      r.available_at ≤ 10 ∧ r.retry_count < MaxRetries) :=
  ⟨(c7_fetch_outbox
      [⟨"r1", "orders", ⟨"m1", "orders.created", [], 0, 0, 3⟩,
        0, 5, 0, none⟩] 10 2).1,
   (c7_fetch_outbox
      [⟨"r1", "orders", ⟨"m1", "orders.created", [], 0, 0, 3⟩,
        0, 5, 0, none⟩] 10 2).2.1⟩

/-- C8: a failed dispatch makes the relay persist retry_count+1,
available_at now plus backoff(retry_count+1) and the dispatch error in the
single transaction modelled by scheduleOutboxRetry; at creation
available_at is no earlier than created_at (two successive monotonic clock
reads), and for a selected row (available_at at most now, retry_count below
MaxRetries) the backoff is non-negative, so available_at never decreases
across reschedules. -/
theorem c8_outbox_reschedule (freshId queueName : String) (msg : Message)
    (tCreated tAvailable : Int) (hclock : tCreated ≤ tAvailable)
    (row : OutboxRow) (now : Int) (e : String)
    (hsel1 : row.available_at ≤ now) (hsel2 : row.retry_count < MaxRetries) :
    (NewOutboxMessage freshId queueName msg tCreated tAvailable).created_at ≤
      (NewOutboxMessage freshId queueName msg tCreated tAvailable).available_at ∧
    (scheduleOutboxRetry now e row).retry_count = row.retry_count + 1 ∧
    (scheduleOutboxRetry now e row).available_at =
      now + calculateExponentialBackoff (row.retry_count + 1) ∧
    (scheduleOutboxRetry now e row).last_error = some e ∧
    0 ≤ calculateExponentialBackoff (row.retry_count + 1) ∧
    row.available_at ≤ (scheduleOutboxRetry now e row).available_at := by
  have hnn : 0 ≤ calculateExponentialBackoff (row.retry_count + 1) := by
    refine calculateExponentialBackoff_nonneg_of_le_three ?_
    have h3 : MaxRetries = 3 := rfl
    omega
  refine ⟨hclock, rfl, rfl, rfl, hnn, ?_⟩
  show row.available_at ≤ now + calculateExponentialBackoff (row.retry_count + 1)
  omega

theorem c8_witness :
    0 ≤ calculateExponentialBackoff
        ((⟨"r1", "orders", ⟨"m1", "orders.created", [], 0, 0, 3⟩,
          0, 5, 0, none⟩ : OutboxRow).retry_count + 1) ∧
    (⟨"r1", "orders", ⟨"m1", "orders.created", [], 0, 0, 3⟩,
        0, 5, 0, none⟩ : OutboxRow).available_at ≤
      (scheduleOutboxRetry 10 "boom"
        ⟨"r1", "orders", ⟨"m1", "orders.created", [], 0, 0, 3⟩,
          0, 5, 0, none⟩).available_at :=
  (c8_outbox_reschedule "o1" "orders" ⟨"m1", "orders.created", [], 0, 0, 3⟩
    0 0 (le_refl 0)
    ⟨"r1", "orders", ⟨"m1", "orders.created", [], 0, 0, 3⟩, 0, 5, 0, none⟩
    10 "boom" (by decide) (by decide)).2.2.2.2

end queue
